import Mathlib

/-!
Verification of the BadgeLink filesystem handler (src/badgelink_fs.c) of the
badgeteam/esp32-component-badgelink repository.

The C code is shallowly embedded: machine integers become Nat (all CRC values
stay below 2^32 by construction), file I/O becomes explicit data passed to the
handlers (a read trace for fread results, an outcome parameter for fwrite /
fopen / fstat), and the static transfer globals (xfer_path, xfer_fd, xfer_is_sd,
xfer_crc32, running_crc, badgelink_xfer_type, badgelink_xfer_is_upload,
badgelink_xfer_size, badgelink_xfer_pos) become a state record threaded through
each handler.
-/

namespace Badgelink

/-- CRC-32 little-endian polynomial used by esp_crc32_le (ESP-IDF). -/
def CRC32_POLY : Nat := 0xEDB88320

/-- All-ones 32-bit mask; xor with it models the uint32 bitwise complement. -/
def UINT32_MASK : Nat := 0xFFFFFFFF

/-- One shift-xor step of the bitwise CRC-32 loop:
crc = (crc >> 1) ^ (0xEDB88320 & -(crc & 1)). -/
def crc32_bit (c : Nat) : Nat :=
  if c % 2 = 1 then (c / 2) ^^^ CRC32_POLY else c / 2

/-- Fold one byte into the CRC: crc ^= byte; then eight bit steps.
External library function (ESP-IDF), modelled from its reference
software implementation. -/
def crc32_byte (c b : Nat) : Nat :=
  crc32_bit^[8] (c ^^^ (b % 256))

/-- The inner loop of esp_crc32_le over a byte buffer (complement already
applied to the accumulator). -/
def crc32_update (c : Nat) (bs : List Nat) : Nat :=
  bs.foldl crc32_byte c

/-- esp_crc32_le(crc, buf, len): crc = ~crc; fold each byte; return ~crc.
External library function (ESP-IDF), modelled from its reference
software implementation; only its fold structure matters below. -/
def esp_crc32_le (c : Nat) (bs : List Nat) : Nat :=
  (crc32_update (c ^^^ UINT32_MASK) bs) ^^^ UINT32_MASK

lemma xor_mask_xor_mask (c : Nat) : (c ^^^ UINT32_MASK) ^^^ UINT32_MASK = c := by
  rw [Nat.xor_assoc, Nat.xor_self, Nat.xor_zero]

lemma esp_crc32_le_nil (c : Nat) : esp_crc32_le c [] = c := by
  simp [esp_crc32_le, crc32_update, xor_mask_xor_mask]

/-- Composing the streaming CRC over two buffers equals the CRC over their
concatenation: the final and initial complements cancel between calls. -/
lemma esp_crc32_le_append (c : Nat) (a b : List Nat) :
    esp_crc32_le (esp_crc32_le c a) b = esp_crc32_le c (a ++ b) := by
  simp [esp_crc32_le, crc32_update, xor_mask_xor_mask, List.foldl_append]

/-! ## Protocol data model -/

/-- Modelled from the spec: the protocol status-code vocabulary produced by the
badgelink_status_* helpers (declared in the component's main header, used by
src/badgelink_fs.c). -/
inductive StatusCode where
  | StatusOk
  | StatusNotSupported
  | StatusNotFound
  | StatusExists
  | StatusIsDir
  | StatusIsFile
  | StatusNotEmpty
  | StatusNoSpace
  | StatusIllState
  | StatusInternalError
  deriving DecidableEq, Repr

/-- Modelled from the spec: the response packet a handler emits.
status c is a status-only response (badgelink_status_* helper);
fsCrcResp size crc32 is an FsActionResp with the crc32 variant and
status_code StatusOk (download start / v2 download finish);
fsListResp is an FsActionResp with the list variant and StatusOk, the
entries being (name, is_dir) pairs in insertion order (list_count is their
number); downloadChunk is a DownloadChunk response with StatusOk. -/
inductive Response where
  | status (code : StatusCode)
  | fsCrcResp (size crc32 : Nat)
  | fsListResp (total_size : Nat) (entries : List (String × Bool))
  | downloadChunk (position : Nat) (data : List Nat)
  deriving DecidableEq, Repr

/-- errno value ENOENT. -/
def ENOENT : Nat := 2
/-- errno value EISDIR. -/
def EISDIR : Nat := 21
/-- errno value ENOSPC. -/
def ENOSPC : Nat := 28

/-- badgelink_xfer_type values: BADGELINK_XFER_NONE / _FS / _APPFS. -/
inductive XferType where
  | xferNone
  | xferFs
  | xferAppfs
  deriving DecidableEq, Repr

/-- The transfer-related static state of src/badgelink_fs.c and of the engine:
xfer_path, xfer_is_sd, xfer_crc32 (expected CRC, client-supplied on upload),
running_crc, plus the engine globals badgelink_xfer_type,
badgelink_xfer_is_upload, badgelink_xfer_size, badgelink_xfer_pos, and whether
the backing handle xfer_fd is currently open. -/
structure FsXferState where
  xfer_type : XferType
  is_upload : Bool
  xfer_size : Nat
  xfer_pos : Nat
  xfer_path : String
  xfer_is_sd : Bool
  xfer_crc32 : Nat
  running_crc : Nat
  handle_open : Bool
  deriving DecidableEq, Repr

/-- Outcome of fopen (or opendir): success, or failure with the errno set. -/
inductive OpenResult where
  | ok
  | fail (errno : Nat)
  deriving DecidableEq, Repr

/-! ## Upload chunk handler (badgelink_fs_xfer_upload) -/

/-- badgelink_fs_xfer_upload: writes the chunk at the current position.
written is the byte count fwrite returned, errno the C errno after it.
A short write with errno ENOSPC answers StatusNoSpace, any other short write
answers StatusInternalError; a full write folds the chunk into running_crc
and answers StatusOk. -/
def badgelink_fs_xfer_upload (st : FsXferState) (chunk : List Nat)
    (written errno : Nat) : Response × FsXferState :=
  if written < chunk.length then
    if errno = ENOSPC then
      (Response.status StatusCode.StatusNoSpace, st)
    else
      (Response.status StatusCode.StatusInternalError, st)
  else
    (Response.status StatusCode.StatusOk,
     { st with running_crc := esp_crc32_le st.running_crc chunk })

/-- A sequence of upload-chunk operations: each element is the chunk data,
the count fwrite reported written, and the errno value after the write. -/
def run_upload_chunks (st : FsXferState) :
    List (List Nat × Nat × Nat) → FsXferState
  | [] => st
  | (c, w, e) :: rest =>
      run_upload_chunks (badgelink_fs_xfer_upload st c w e).2 rest

/-- The bytes of exactly those chunks whose fwrite reported a full write
(a short write contributes nothing, not even its written part). -/
def successfulBytes : List (List Nat × Nat × Nat) → List Nat
  | [] => []
  | (c, w, _) :: rest => (if w < c.length then [] else c) ++ successfulBytes rest

/-! ## Download chunk handler (badgelink_fs_xfer_download) -/

/-- badgelink_fs_xfer_download: reads up to the chunk capacity into a
DownloadChunk response at position badgelink_xfer_pos. data is what fread
returned, readErr the ferror flag of the stream afterward. On a read error
the reply is StatusInternalError; otherwise, for negotiated version >= 2 the
bytes are folded into running_crc, and the chunk is sent. -/
def badgelink_fs_xfer_download_step (version : Nat) (st : FsXferState)
    (data : List Nat) (readErr : Bool) : Response × FsXferState :=
  if readErr then
    (Response.status StatusCode.StatusInternalError, st)
  else if 2 ≤ version then
    (Response.downloadChunk st.xfer_pos data,
     { st with running_crc := esp_crc32_le st.running_crc data })
  else
    (Response.downloadChunk st.xfer_pos data, st)

/-- Stream a sequence of successfully read chunks through the download
chunk handler (readErr = false each time). -/
def run_download_chunks (version : Nat) (st : FsXferState) :
    List (List Nat) → FsXferState
  | [] => st
  | c :: rest =>
      run_download_chunks version
        (badgelink_fs_xfer_download_step version st c false).2 rest

/-! ## Transfer finish/abort (badgelink_fs_xfer_stop) -/

/-- What badgelink_fs_xfer_stop did: whether the backing handle was closed
(bl_sd_fclose or fclose), which path (if any) was unlink-ed, and the response
packet sent (none when no packet is produced). -/
structure StopResult where
  handle_closed : Bool
  deleted : Option String
  response : Option Response
  deriving DecidableEq, Repr

/-- badgelink_fs_xfer_stop(abnormal): abnormal stop closes the handle,
deletes the partial target iff the transfer was an upload, and sends nothing.
A normal upload finish closes the handle, then compares running_crc with the
expected xfer_crc32: on mismatch it unlinks the target and answers
StatusInternalError, on match it answers StatusOk. A normal download finish
closes the handle and answers StatusOk for version 1, or an FsActionResp
carrying size and the accumulated running_crc for version >= 2. -/
def badgelink_fs_xfer_stop (abnormal : Bool) (st : FsXferState)
    (version : Nat) : StopResult :=
  if abnormal then
    { handle_closed := true,
      deleted := if st.is_upload then some st.xfer_path else none,
      response := none }
  else if st.is_upload then
    if st.running_crc ≠ st.xfer_crc32 then
      { handle_closed := true,
        deleted := some st.xfer_path,
        response := some (Response.status StatusCode.StatusInternalError) }
    else
      { handle_closed := true,
        deleted := none,
        response := some (Response.status StatusCode.StatusOk) }
  else
    if 2 ≤ version then
      { handle_closed := true,
        deleted := none,
        response := some (Response.fsCrcResp st.xfer_size st.running_crc) }
    else
      { handle_closed := true,
        deleted := none,
        response := some (Response.status StatusCode.StatusOk) }

/-! ## Directory listing (badgelink_fs_list) -/

/-- The entry filter of badgelink_fs_list, line 235 of src/badgelink_fs.c:
if (strcmp(ent->d_name, ".") || strcmp(ent->d_name, "..")).
strcmp returns 0 exactly when the strings are equal, and the C condition is
true when either strcmp is nonzero. -/
def listCondition (name : String) : Bool :=
  (name != ".") || (name != "..")

/-- Accumulator of the readdir loop: resp->total_size and the entries placed
into resp->list so far (resp->list_count is entries.length). -/
structure FsDirentList where
  total_size : Nat
  entries : List (String × Bool)
  deriving DecidableEq, Repr

/-- The readdir loop of badgelink_fs_list over the enumeration order of the
directory. Each dirent is (d_name, d_type == DT_DIR). When the filter
accepts an entry, total_size is incremented; while skip is nonzero it is
decremented instead of storing the entry; otherwise the entry is appended
as long as the fixed capacity max_count has room. (Name truncation by
strlcpy to the fixed name capacity is not modelled; names are kept whole.) -/
def fs_list_loop (max_count : Nat) :
    List (String × Bool) → Nat → FsDirentList → FsDirentList
  | [], _, acc => acc
  | (nm, isDir) :: rest, skip, acc =>
    if listCondition nm then
      let acc1 : FsDirentList := { acc with total_size := acc.total_size + 1 }
      if skip ≠ 0 then
        fs_list_loop max_count rest (skip - 1) acc1
      else if acc1.entries.length < max_count then
        fs_list_loop max_count rest 0
          { acc1 with entries := acc1.entries ++ [(nm, isDir)] }
      else
        fs_list_loop max_count rest 0 acc1
    else
      fs_list_loop max_count rest skip acc

/-- badgelink_fs_list: openDir is the result of opendir — none means failure
with openErrno set, some ents gives the dirents in enumeration order.
max_count is the fixed capacity of resp->list. -/
def badgelink_fs_list (openDir : Option (List (String × Bool)))
    (openErrno : Nat) (list_offset max_count : Nat) : Response :=
  match openDir with
  | Option.none =>
      if openErrno = ENOENT then Response.status StatusCode.StatusNotFound
      else Response.status StatusCode.StatusInternalError
  | some ents =>
      let r := fs_list_loop max_count ents list_offset
        { total_size := 0, entries := [] }
      Response.fsListResp r.total_size r.entries

/-! ## Upload start (badgelink_fs_upload) -/

/-- badgelink_fs_upload: a start request while badgelink_xfer_type is not
BADGELINK_XFER_NONE answers StatusIllState and changes nothing. Otherwise
xfer_path and xfer_is_sd are recorded, the target is opened for writing
(openRes); open failure maps errno ENOENT to StatusNotFound, EISDIR to
StatusIsDir, anything else to StatusInternalError. On success the transfer
is set up (type FS, upload, size and expected CRC from the request,
position 0, running_crc 0) and the reply is StatusOk. -/
def badgelink_fs_upload (st : FsXferState) (path : String)
    (req_size req_crc32 : Nat) (openRes : OpenResult) :
    Response × FsXferState :=
  if st.xfer_type ≠ XferType.xferNone then
    (Response.status StatusCode.StatusIllState, st)
  else
    let st1 : FsXferState :=
      { st with xfer_path := path, xfer_is_sd := path.startsWith "/sd" }
    match openRes with
    | OpenResult.fail e =>
        if e = ENOENT then (Response.status StatusCode.StatusNotFound, st1)
        else if e = EISDIR then (Response.status StatusCode.StatusIsDir, st1)
        else (Response.status StatusCode.StatusInternalError, st1)
    | OpenResult.ok =>
        (Response.status StatusCode.StatusOk,
         { st1 with
             xfer_type := XferType.xferFs,
             is_upload := true,
             xfer_size := req_size,
             xfer_pos := 0,
             xfer_crc32 := req_crc32,
             running_crc := 0,
             handle_open := true })

/-! ## Download start (badgelink_fs_download) -/

/-- The protocol-version-1 pre-scan loop of badgelink_fs_download:
rcount = 1; while (rcount) { rcount = fread(tmp, 1, 128, fd);
crc = esp_crc32_le(crc, tmp, rcount); size += rcount; }.
trace lists the successive fread results; an exhausted trace stands for the
zero-length read that ends the loop (folding zero bytes leaves crc as it is,
see esp_crc32_le_nil). The stream error flag is never consulted here. -/
def v1_scan : List (List Nat) → Nat → Nat → Nat × Nat
  | [], crc, size => (crc, size)
  | c :: rest, crc, size =>
      if c.length = 0 then (esp_crc32_le crc c, size + c.length)
      else v1_scan rest (esp_crc32_le crc c) (size + c.length)

/-- The fread results the v1 pre-scan actually folds: the trace up to (not
including) the first zero-length read. -/
def traceRead : List (List Nat) → List (List Nat)
  | [] => []
  | c :: rest => if c.length = 0 then [] else c :: traceRead rest

/-- The fread results produced by a fully successful sequential read of a
file with the given contents, 128 bytes at a time. -/
def chunks128 (l : List Nat) : List (List Nat) :=
  if h : l = [] then []
  else l.take 128 :: chunks128 (l.drop 128)
termination_by l.length
decreasing_by
  simp only [List.length_drop]
  have hl : l.length ≠ 0 := by
    intro h0
    exact h (List.eq_nil_of_length_eq_zero h0)
  omega

/-- Result of badgelink_fs_download: the response packet, the transfer state
afterward, and the offset of the (open) backing handle after the call —
0 both after the version-1 fseek rewind and after the metadata-only
version-2 path. -/
structure DownloadStartResult where
  response : Response
  st : FsXferState
  file_offset : Nat
  deriving DecidableEq, Repr

/-- badgelink_fs_download: a start while a transfer is active answers
StatusIllState and changes nothing. Otherwise xfer_path / xfer_is_sd are
recorded and the file is opened for reading (openRes), with the usual errno
mapping on failure. For negotiated version >= 2 the size comes from fstat
(statSize; none models fstat failing, which closes the handle and answers
StatusInternalError), the reported crc stays 0, and running_crc is reset
to 0. For version 1 the whole file is read once (v1_scan over readTrace,
whose error flag ferr the code never consults) and the handle is rewound
with fseek. In both success paths the transfer is set up (type FS,
download, position 0, size as computed) and an FsActionResp {size, crc}
is sent. -/
def badgelink_fs_download (st : FsXferState) (version : Nat) (path : String)
    (openRes : OpenResult) (statSize : Option Nat)
    (readTrace : List (List Nat)) (ferr : Bool) : DownloadStartResult :=
  if st.xfer_type ≠ XferType.xferNone then
    { response := Response.status StatusCode.StatusIllState,
      st := st, file_offset := 0 }
  else
    let st1 : FsXferState :=
      { st with xfer_path := path, xfer_is_sd := path.startsWith "/sd" }
    match openRes with
    | OpenResult.fail e =>
        if e = ENOENT then
          { response := Response.status StatusCode.StatusNotFound,
            st := st1, file_offset := 0 }
        else if e = EISDIR then
          { response := Response.status StatusCode.StatusIsDir,
            st := st1, file_offset := 0 }
        else
          { response := Response.status StatusCode.StatusInternalError,
            st := st1, file_offset := 0 }
    | OpenResult.ok =>
        if 2 ≤ version then
          match statSize with
          | Option.none =>
              { response := Response.status StatusCode.StatusInternalError,
                st := { st1 with handle_open := false }, file_offset := 0 }
          | some n =>
              { response := Response.fsCrcResp n 0,
                st := { st1 with
                          xfer_type := XferType.xferFs,
                          is_upload := false,
                          xfer_pos := 0,
                          xfer_size := n,
                          running_crc := 0,
                          handle_open := true },
                file_offset := 0 }
        else
          let scanned := v1_scan readTrace 0 0
          { response := Response.fsCrcResp scanned.2 scanned.1,
            st := { st1 with
                      xfer_type := XferType.xferFs,
                      is_upload := false,
                      xfer_pos := 0,
                      xfer_size := scanned.2,
                      handle_open := true },
            file_offset := 0 }

/-! ## Helper lemmas -/

/-- The running CRC after a sequence of upload-chunk operations is the CRC
fold of the bytes of the fully written chunks over the starting value. -/
lemma run_upload_chunks_crc (ops : List (List Nat × Nat × Nat)) :
    ∀ st : FsXferState,
      (run_upload_chunks st ops).running_crc
        = esp_crc32_le st.running_crc (successfulBytes ops) := by
  induction ops with
  | nil =>
      intro st
      simp [run_upload_chunks, successfulBytes, esp_crc32_le_nil]
  | cons op rest ih =>
      intro st
      obtain ⟨c, w, e⟩ := op
      by_cases hw : w < c.length
      · have hst : (badgelink_fs_xfer_upload st c w e).2 = st := by
          simp only [badgelink_fs_xfer_upload, if_pos hw]
          by_cases he : e = ENOSPC
          · rw [if_pos he]
          · rw [if_neg he]
        simp [run_upload_chunks, successfulBytes, hst, ih, if_pos hw]
      · have hst : (badgelink_fs_xfer_upload st c w e).2
            = { st with running_crc := esp_crc32_le st.running_crc c } := by
          simp only [badgelink_fs_xfer_upload, if_neg hw]
        simp only [run_upload_chunks, successfulBytes, hst, ih, if_neg hw]
        rw [esp_crc32_le_append]

/-- Feeding every chunk as a fully successful write. -/
lemma successfulBytes_map_full (chunks : List (List Nat)) :
    successfulBytes (chunks.map (fun c => (c, c.length, 0)))
      = chunks.flatten := by
  induction chunks with
  | nil => rfl
  | cons c rest ih => simp [successfulBytes, ih]

/-- Streaming download chunks only ever touches running_crc. -/
lemma run_download_chunks_fields (version : Nat) (cs : List (List Nat)) :
    ∀ st : FsXferState,
      (run_download_chunks version st cs).is_upload = st.is_upload
      ∧ (run_download_chunks version st cs).xfer_size = st.xfer_size
      ∧ (run_download_chunks version st cs).xfer_crc32 = st.xfer_crc32 := by
  induction cs with
  | nil => intro st; exact ⟨rfl, rfl, rfl⟩
  | cons c rest ih =>
      intro st
      by_cases hv : 2 ≤ version
      · simpa [run_download_chunks, badgelink_fs_xfer_download_step, hv]
          using ih { st with running_crc := esp_crc32_le st.running_crc c }
      · simpa [run_download_chunks, badgelink_fs_xfer_download_step, hv]
          using ih st

/-- For a version >= 2 session, streaming download chunks folds their
concatenation into running_crc. -/
lemma run_download_chunks_crc_v2 (version : Nat) (hv : 2 ≤ version)
    (cs : List (List Nat)) :
    ∀ st : FsXferState,
      (run_download_chunks version st cs).running_crc
        = esp_crc32_le st.running_crc cs.flatten := by
  induction cs with
  | nil => intro st; simp [run_download_chunks, esp_crc32_le_nil]
  | cons c rest ih =>
      intro st
      simp only [run_download_chunks, badgelink_fs_xfer_download_step,
        Bool.false_eq_true, if_false, if_pos hv, List.flatten_cons]
      rw [ih]
      simp [esp_crc32_le_append]

/-- The v1 pre-scan folds exactly the trace up to the first zero-length
read, and counts exactly those bytes. -/
lemma v1_scan_eq (trace : List (List Nat)) :
    ∀ crc size : Nat,
      v1_scan trace crc size
        = (esp_crc32_le crc (traceRead trace).flatten,
           size + (traceRead trace).flatten.length) := by
  induction trace with
  | nil =>
      intro crc size
      simp [v1_scan, traceRead, esp_crc32_le_nil]
  | cons c rest ih =>
      intro crc size
      by_cases hc : c.length = 0
      · have hcnil : c = [] := List.eq_nil_of_length_eq_zero hc
        simp [v1_scan, traceRead, hcnil, esp_crc32_le_nil]
      · simp only [v1_scan, traceRead, if_neg hc, ih, List.flatten_cons]
        rw [esp_crc32_le_append]
        simp [List.length_append]
        omega

/-- The v1 pre-scan over a fully successful read of a file computes the CRC
of the whole contents and their length. -/
lemma v1_scan_chunks128_aux (n : Nat) :
    ∀ l : List Nat, l.length ≤ n → ∀ crc size : Nat,
      v1_scan (chunks128 l) crc size
        = (esp_crc32_le crc l, size + l.length) := by
  induction n with
  | zero =>
      intro l hl crc size
      have hnil : l = [] := by
        have : l.length = 0 := Nat.le_zero.mp hl
        exact List.eq_nil_of_length_eq_zero this
      subst hnil
      rw [chunks128]
      simp [v1_scan, esp_crc32_le_nil]
  | succ n ih =>
      intro l hl crc size
      by_cases h : l = []
      · subst h
        rw [chunks128]
        simp [v1_scan, esp_crc32_le_nil]
      · have hl0 : 0 < l.length := List.length_pos.mpr h
        rw [chunks128]
        rw [dif_neg h]
        have ht : ¬ (l.take 128).length = 0 := by
          rw [List.length_take]
          omega
        simp only [v1_scan, if_neg ht]
        have hdrop : (l.drop 128).length ≤ n := by
          rw [List.length_drop]
          omega
        rw [ih (l.drop 128) hdrop]
        rw [esp_crc32_le_append, List.take_append_drop]
        rw [List.length_take, List.length_drop]
        have : min 128 l.length + (l.length - 128) = l.length := by omega
        rw [Nat.add_assoc]
        rw [this]

lemma v1_scan_chunks128 (l : List Nat) (crc size : Nat) :
    v1_scan (chunks128 l) crc size
      = (esp_crc32_le crc l, size + l.length) :=
  v1_scan_chunks128_aux l.length l le_rfl crc size

/-! ## Concrete states used to instantiate the theorems -/

/-- A fresh engine state: no transfer active. -/
def st0 : FsXferState :=
  { xfer_type := XferType.xferNone, is_upload := false, xfer_size := 0,
    xfer_pos := 0, xfer_path := "", xfer_is_sd := false, xfer_crc32 := 0,
    running_crc := 0, handle_open := false }

/-- A state with an FS transfer already active. -/
def stBusy : FsXferState :=
  { st0 with xfer_type := XferType.xferFs, handle_open := true }

/-- A state in the middle of an FS download started on a v2 session. -/
def stDown : FsXferState :=
  { st0 with
    xfer_type := XferType.xferFs,
    xfer_size := 3,
    handle_open := true }

/-- A state at the end of an FS upload whose running CRC does not match the
client-supplied expected CRC. -/
def stUpBad : FsXferState :=
  { st0 with
    xfer_type := XferType.xferFs,
    is_upload := true,
    xfer_path := "/flash/a.bin",
    xfer_crc32 := 1,
    running_crc := 2,
    handle_open := true }

/-! ## Claim theorems -/

/-- C1: contrary to the claim (and to the code's own comment), the List
handler does not skip the "." and ".." entries: the filter
strcmp(name, ".") || strcmp(name, "..") is nonzero for every name, since no
name equals both "." and "..". On a directory enumerating ".", "..", "a"
with list_offset 0 the response counts and returns all three entries,
where the claim demands total_size = 1 and names = ["a"]. -/
theorem fs_list_counts_dot_entries :
    badgelink_fs_list (some [(".", true), ("..", true), ("a", false)]) 0 0 8
      = Response.fsListResp 3 [(".", true), ("..", true), ("a", false)] := by
  rfl

/-- C2: a successful FS download start from Idle: with negotiated version 1
the whole file is read once (the read trace is a full sequential read of the
contents), the start response carries the full size and the CRC32 of the
full contents, and the handle ends rewound at offset 0; with negotiated
version >= 2 the size comes from fstat metadata only (the result does not
depend on the read trace or the stream error flag), the start response
carries crc32 = 0, and running_crc is reset to 0. -/
theorem fs_download_start_version_behavior
    (st : FsXferState) (path : String) (version : Nat)
    (contents : List Nat) (sz : Nat) (ss : Option Nat)
    (trace : List (List Nat)) (ferr : Bool)
    (hidle : st.xfer_type = XferType.xferNone) :
    (version = 1 →
       (badgelink_fs_download st version path OpenResult.ok ss
           (chunks128 contents) ferr).response
         = Response.fsCrcResp contents.length (esp_crc32_le 0 contents)
       ∧ (badgelink_fs_download st version path OpenResult.ok ss
           (chunks128 contents) ferr).file_offset = 0)
    ∧ (2 ≤ version →
       (badgelink_fs_download st version path OpenResult.ok (some sz)
           trace ferr).response = Response.fsCrcResp sz 0
       ∧ (badgelink_fs_download st version path OpenResult.ok (some sz)
           trace ferr).st.running_crc = 0
       ∧ ∀ (trace2 : List (List Nat)) (ferr2 : Bool),
           badgelink_fs_download st version path OpenResult.ok (some sz)
               trace ferr
             = badgelink_fs_download st version path OpenResult.ok (some sz)
               trace2 ferr2) := by
  constructor
  · intro hv
    subst hv
    constructor
    · simp [badgelink_fs_download, hidle, v1_scan_chunks128]
    · simp [badgelink_fs_download, hidle]
  · intro hv
    refine ⟨?_, ?_, ?_⟩
    · simp [badgelink_fs_download, hidle, hv]
    · simp [badgelink_fs_download, hidle, hv]
    · intro trace2 ferr2
      simp [badgelink_fs_download, hidle, hv]

/-- C2 witness: version-2 start at a concrete idle state and file. -/
theorem fs_download_start_version_behavior_witness :
    (badgelink_fs_download st0 2 "/flash/f" OpenResult.ok (some 5)
        [] false).response = Response.fsCrcResp 5 0 :=
  ((fs_download_start_version_behavior st0 "/flash/f" 2 [] 5 (some 5)
      [] false rfl).2 (by omega)).1

/-- C3: a normal finish of an FS download transfer closes the handle; a
version-1 session gets a plain StatusOk, a version >= 2 session gets an
FsActionResp carrying the transfer size and a crc32 equal to the running
CRC accumulated over the streamed chunks (the CRC32 of their
concatenation, running_crc having started at 0 at download start). -/
theorem fs_download_finish_behavior
    (st : FsXferState) (version : Nat) (chunks : List (List Nat))
    (hdown : st.is_upload = false) (h0 : st.running_crc = 0) :
    (badgelink_fs_xfer_stop false
        (run_download_chunks version st chunks) version).handle_closed = true
    ∧ (version = 1 →
        (badgelink_fs_xfer_stop false
            (run_download_chunks version st chunks) version).response
          = some (Response.status StatusCode.StatusOk))
    ∧ (2 ≤ version →
        (badgelink_fs_xfer_stop false
            (run_download_chunks version st chunks) version).response
          = some (Response.fsCrcResp st.xfer_size
              (esp_crc32_le 0 chunks.flatten))) := by
  have hf := run_download_chunks_fields version chunks st
  refine ⟨?_, ?_, ?_⟩
  · simp only [badgelink_fs_xfer_stop]
    split_ifs <;> rfl
  · intro hv
    subst hv
    simp [badgelink_fs_xfer_stop, hf.1, hdown]
  · intro hv
    have hcrc := run_download_chunks_crc_v2 version hv chunks st
    rw [h0] at hcrc
    simp [badgelink_fs_xfer_stop, hf.1, hf.2.1, hdown, hv, hcrc]

/-- C3 witness: finishing a v2 download of three bytes streamed as two
chunks reports the size and the CRC of the concatenated bytes. -/
theorem fs_download_finish_behavior_witness :
    (badgelink_fs_xfer_stop false
        (run_download_chunks 2 stDown [[1, 2], [3]]) 2).response
      = some (Response.fsCrcResp 3 (esp_crc32_le 0 [1, 2, 3])) := by
  simpa using
    (fs_download_finish_behavior stDown 2 [[1, 2], [3]] rfl rfl).2.2
      (by omega)

/-- C4: a normal finish of an FS upload closes the handle and compares
running_crc with the client-supplied expected CRC: on mismatch the partial
target is deleted and the answer is StatusInternalError, on match nothing
is deleted and the answer is StatusOk. -/
theorem fs_upload_finish_crc_check
    (st : FsXferState) (version : Nat) (hup : st.is_upload = true) :
    (badgelink_fs_xfer_stop false st version).handle_closed = true
    ∧ (st.running_crc ≠ st.xfer_crc32 →
        (badgelink_fs_xfer_stop false st version).deleted = some st.xfer_path
        ∧ (badgelink_fs_xfer_stop false st version).response
            = some (Response.status StatusCode.StatusInternalError))
    ∧ (st.running_crc = st.xfer_crc32 →
        (badgelink_fs_xfer_stop false st version).deleted = none
        ∧ (badgelink_fs_xfer_stop false st version).response
            = some (Response.status StatusCode.StatusOk)) := by
  refine ⟨?_, ?_, ?_⟩
  · simp only [badgelink_fs_xfer_stop]
    split_ifs <;> rfl
  · intro hne
    constructor <;> simp [badgelink_fs_xfer_stop, hup, hne]
  · intro heq
    constructor <;> simp [badgelink_fs_xfer_stop, hup, heq]

/-- C4 witness: a CRC mismatch at a concrete upload finish deletes the
target and answers StatusInternalError. -/
theorem fs_upload_finish_crc_check_witness :
    (badgelink_fs_xfer_stop false stUpBad 1).deleted = some "/flash/a.bin"
    ∧ (badgelink_fs_xfer_stop false stUpBad 1).response
        = some (Response.status StatusCode.StatusInternalError) :=
  (fs_upload_finish_crc_check stUpBad 1 rfl).2.1 (by decide)

/-- C5: an FS Upload or Download start request while a transfer is active
answers StatusIllState and leaves the whole transfer state unchanged. -/
theorem fs_start_while_active_rejected
    (st : FsXferState) (path : String) (req_size req_crc32 version : Nat)
    (openRes : OpenResult) (statSize : Option Nat)
    (trace : List (List Nat)) (ferr : Bool)
    (hbusy : st.xfer_type ≠ XferType.xferNone) :
    badgelink_fs_upload st path req_size req_crc32 openRes
        = (Response.status StatusCode.StatusIllState, st)
    ∧ badgelink_fs_download st version path openRes statSize trace ferr
        = { response := Response.status StatusCode.StatusIllState,
            st := st, file_offset := 0 } := by
  constructor
  · simp only [badgelink_fs_upload]
    rw [if_pos hbusy]
  · simp only [badgelink_fs_download]
    rw [if_pos hbusy]

/-- C5 witness: a second upload start at a concrete busy state is rejected
with the state intact. -/
theorem fs_start_while_active_rejected_witness :
    badgelink_fs_upload stBusy "/flash/b" 4 7 OpenResult.ok
      = (Response.status StatusCode.StatusIllState, stBusy) :=
  (fs_start_while_active_rejected stBusy "/flash/b" 4 7 1 OpenResult.ok
      Option.none [] false (by decide)).1

/-- C6: an upload chunk during an active FS upload: a short write with
errno ENOSPC answers StatusNoSpace leaving the state (hence the active
transfer) untouched; a short write with any other errno answers
StatusInternalError; a full write folds the chunk bytes into running_crc
and answers StatusOk. -/
theorem fs_upload_chunk_outcomes
    (st : FsXferState) (chunk : List Nat) (written errno : Nat) :
    (written < chunk.length → errno = ENOSPC →
        badgelink_fs_xfer_upload st chunk written errno
          = (Response.status StatusCode.StatusNoSpace, st))
    ∧ (written < chunk.length → errno ≠ ENOSPC →
        badgelink_fs_xfer_upload st chunk written errno
          = (Response.status StatusCode.StatusInternalError, st))
    ∧ (¬ written < chunk.length →
        badgelink_fs_xfer_upload st chunk written errno
          = (Response.status StatusCode.StatusOk,
             { st with running_crc := esp_crc32_le st.running_crc chunk })) := by
  refine ⟨?_, ?_, ?_⟩
  · intro hw he
    simp [badgelink_fs_xfer_upload, hw, he]
  · intro hw he
    simp [badgelink_fs_xfer_upload, hw, he]
  · intro hw
    simp [badgelink_fs_xfer_upload, hw]

/-- C6 witness: a zero-byte write of a one-byte chunk with errno ENOSPC at
a concrete state answers StatusNoSpace and changes nothing. -/
theorem fs_upload_chunk_outcomes_witness :
    badgelink_fs_xfer_upload stBusy [1] 0 ENOSPC
      = (Response.status StatusCode.StatusNoSpace, stBusy) :=
  (fs_upload_chunk_outcomes stBusy [1] 0 ENOSPC).1 (by decide) rfl

/-- C7: feeding an active upload (running_crc starting at 0) a sequence of
fully written chunks leaves running_crc equal to the CRC32 of the
concatenation of the chunks, so the result is invariant under how the same
byte string is split into chunks. -/
theorem upload_crc_chunk_boundary_invariant
    (st : FsXferState) (chunks : List (List Nat))
    (h0 : st.running_crc = 0) :
    (run_upload_chunks st
        (chunks.map (fun c => (c, c.length, 0)))).running_crc
      = esp_crc32_le 0 chunks.flatten
    ∧ ∀ chunks2 : List (List Nat),
        chunks2.flatten = chunks.flatten →
        (run_upload_chunks st
            (chunks2.map (fun c => (c, c.length, 0)))).running_crc
          = (run_upload_chunks st
              (chunks.map (fun c => (c, c.length, 0)))).running_crc := by
  have key : ∀ cs : List (List Nat),
      (run_upload_chunks st
          (cs.map (fun c => (c, c.length, 0)))).running_crc
        = esp_crc32_le 0 cs.flatten := by
    intro cs
    rw [run_upload_chunks_crc, successfulBytes_map_full, h0]
  refine ⟨key chunks, ?_⟩
  intro chunks2 hflat
  rw [key chunks2, key chunks, hflat]

/-- C7 witness: the same three bytes split as one or two chunks give the
same running CRC: the CRC of the concatenation. -/
theorem upload_crc_chunk_boundary_invariant_witness :
    (run_upload_chunks st0
        ([[1], [2, 3]].map (fun c => (c, c.length, 0)))).running_crc
      = esp_crc32_le 0 [1, 2, 3] := by
  simpa using (upload_crc_chunk_boundary_invariant st0 [[1], [2, 3]] rfl).1

/-- C8: an abnormal stop of an active FS transfer closes the handle,
deletes the partial target exactly when the direction was upload, and
produces no response packet of any kind. -/
theorem fs_xfer_abort_cleanup (st : FsXferState) (version : Nat) :
    (badgelink_fs_xfer_stop true st version).handle_closed = true
    ∧ (badgelink_fs_xfer_stop true st version).deleted
        = (if st.is_upload then some st.xfer_path else none)
    ∧ (badgelink_fs_xfer_stop true st version).response = none := by
  refine ⟨?_, ?_, ?_⟩ <;> simp [badgelink_fs_xfer_stop]

/-- C9: after any sequence of upload-chunk operations starting from
running_crc = 0, running_crc equals the CRC32 of the concatenation of
exactly the fully written chunks; a chunk whose write was short (answered
StatusNoSpace or StatusInternalError) contributes nothing, not even the
bytes actually written. -/
theorem upload_crc_successful_chunks_only
    (st : FsXferState) (ops : List (List Nat × Nat × Nat))
    (h0 : st.running_crc = 0) :
    (run_upload_chunks st ops).running_crc
      = esp_crc32_le 0 (successfulBytes ops) := by
  rw [run_upload_chunks_crc, h0]

/-- C9 witness: a short ENOSPC write of [5, 6] followed by a full write of
[7] leaves running_crc at the CRC of just [7]. -/
theorem upload_crc_successful_chunks_only_witness :
    (run_upload_chunks st0 [([5, 6], 1, 28), ([7], 1, 0)]).running_crc
      = esp_crc32_le 0 [7] := by
  simpa [successfulBytes] using
    upload_crc_successful_chunks_only st0 [([5, 6], 1, 28), ([7], 1, 0)] rfl

/-- C10: on a version-1 download start the pre-scan loop stops at the first
zero-length fread and never consults the stream error flag: the response is
always the StatusOk FsActionResp whose size and crc32 reflect exactly the
prefix read before the first zero-length result, identically for either
value of the error flag — a mid-scan read failure is indistinguishable
from end-of-file and never yields StatusInternalError. -/
theorem fs_download_v1_scan_error_insensitive
    (st : FsXferState) (path : String) (ss : Option Nat)
    (trace : List (List Nat)) (ferr : Bool)
    (hidle : st.xfer_type = XferType.xferNone) :
    (badgelink_fs_download st 1 path OpenResult.ok ss trace ferr).response
      = Response.fsCrcResp (traceRead trace).flatten.length
          (esp_crc32_le 0 (traceRead trace).flatten)
    ∧ ∀ ferr2 : Bool,
        badgelink_fs_download st 1 path OpenResult.ok ss trace ferr
          = badgelink_fs_download st 1 path OpenResult.ok ss trace ferr2 := by
  constructor
  · simp [badgelink_fs_download, hidle, v1_scan_eq]
  · intro ferr2
    simp [badgelink_fs_download, hidle]

/-- C10 witness: a trace whose second fread returns 0 bytes (error or EOF)
yields StatusOk with size 2 and the CRC of just the first two bytes, with
the error flag set. -/
theorem fs_download_v1_scan_error_insensitive_witness :
    (badgelink_fs_download st0 1 "/flash/f" OpenResult.ok Option.none
        [[1, 2], [], [3]] true).response
      = Response.fsCrcResp 2 (esp_crc32_le 0 [1, 2]) := by
  simpa [traceRead] using
    (fs_download_v1_scan_error_insensitive st0 "/flash/f" Option.none
        [[1, 2], [], [3]] true rfl).1

end Badgelink
